import Mathlib

/-!
Verification development for the survey-submission service
(`models.py`, `app.py`, `storage.py`).

The Python source is shallowly embedded: pure functions become Lean
functions, the append-only file store becomes explicit state passing,
machine-level details (SHA-256, UTF-8, JSON serialisation, `str.strip`,
`str.lower`, `str(int)`) are spelled out over `Nat`, `Char` and `String`.
Python's `str.strip`/`str.lower` are Unicode-aware; the embedding models
the ASCII behaviour, which covers every value the claims touch.
-/

namespace Survey

/-! ## Python string primitives -/

/-- Whitespace characters recognised by Python's `str.strip()` (ASCII part). -/
def pyIsSpace (c : Char) : Bool :=
  c = ' ' || c = '\t' || c = '\n' || c = '\r' || c = '\x0b' || c = '\x0c'

/-- Python `str.strip()`: drop leading and trailing whitespace. -/
def pystrip (s : String) : String :=
  ⟨((s.data.dropWhile pyIsSpace).reverse.dropWhile pyIsSpace).reverse⟩

/-- ASCII case folding of one character, as `str.lower()` does on ASCII text. -/
def pyLowerChar (c : Char) : Char :=
  if 'A' ≤ c && c ≤ 'Z' then Char.ofNat (c.toNat + 32) else c

/-- Python `str.lower()` (ASCII part). -/
def pyLower (s : String) : String :=
  ⟨s.data.map pyLowerChar⟩

/-- Decimal digit character for a value below ten. -/
def digitChar (d : Nat) : Char := Char.ofNat (48 + d)

/-- Decimal digits of `n`, most significant first; `fuel` bounds the recursion. -/
def natDigits : Nat → Nat → List Char
  | 0, _ => []
  | fuel + 1, n =>
    if n < 10 then [digitChar n]
    else natDigits fuel (n / 10) ++ [digitChar (n % 10)]

/-- Python `str(n)` for a natural number. -/
def pyNatStr (n : Nat) : String := ⟨natDigits (n + 1) n⟩

/-- Python `str(n)` for an integer (e.g. `str(self.age)` in `to_storage_record`). -/
def pyIntStr : Int → String
  | .ofNat n => pyNatStr n
  | .negSucc m => "-" ++ pyNatStr (m + 1)

/-! ## UTF-8 (Python `str.encode("utf-8")`) -/

/-- Standard UTF-8 encoding of a single code point, as a list of byte values. -/
def utf8EncodeCharBytes (c : Char) : List Nat :=
  let n := c.toNat
  if n < 0x80 then [n]
  else if n < 0x800 then
    [0xC0 ||| (n >>> 6), 0x80 ||| (n &&& 0x3F)]
  else if n < 0x10000 then
    [0xE0 ||| (n >>> 12), 0x80 ||| ((n >>> 6) &&& 0x3F), 0x80 ||| (n &&& 0x3F)]
  else
    [0xF0 ||| (n >>> 18), 0x80 ||| ((n >>> 12) &&& 0x3F),
     0x80 ||| ((n >>> 6) &&& 0x3F), 0x80 ||| (n &&& 0x3F)]

/-- Python `value.encode("utf-8")` as a list of byte values. -/
def utf8Bytes (s : String) : List Nat :=
  s.data.flatMap utf8EncodeCharBytes

/-! ## SHA-256 (`hashlib.sha256(...).hexdigest()`) -/

/-- Truncation to a 32-bit word. -/
def w32 (n : Nat) : Nat := n % 4294967296

/-- Right rotation of a 32-bit word by `s` places. -/
def rotr32 (s x : Nat) : Nat := w32 ((x >>> s) ||| (x <<< (32 - s)))

/-- Bitwise complement of a 32-bit word. -/
def not32 (x : Nat) : Nat := x ^^^ 4294967295

/-- SHA-256 `Ch` function. -/
def shaCh (e f g : Nat) : Nat := (e &&& f) ^^^ (not32 e &&& g)

/-- SHA-256 `Maj` function. -/
def shaMaj (a b c : Nat) : Nat := (a &&& b) ^^^ (a &&& c) ^^^ (b &&& c)

/-- SHA-256 big sigma 0. -/
def bigSigma0 (x : Nat) : Nat := rotr32 2 x ^^^ rotr32 13 x ^^^ rotr32 22 x

/-- SHA-256 big sigma 1. -/
def bigSigma1 (x : Nat) : Nat := rotr32 6 x ^^^ rotr32 11 x ^^^ rotr32 25 x

/-- SHA-256 small sigma 0. -/
def smallSigma0 (x : Nat) : Nat := rotr32 7 x ^^^ rotr32 18 x ^^^ (x >>> 3)

/-- SHA-256 small sigma 1. -/
def smallSigma1 (x : Nat) : Nat := rotr32 17 x ^^^ rotr32 19 x ^^^ (x >>> 10)

/-- SHA-256 round constants. -/
def shaK : List Nat :=
  [1116352408, 1899447441, 3049323471, 3921009573, 961987163, 1508970993,
   2453635748, 2870763221, 3624381080, 310598401, 607225278, 1426881987,
   1925078388, 2162078206, 2614888103, 3248222580, 3835390401, 4022224774,
   264347078, 604807628, 770255983, 1249150122, 1555081692, 1996064986,
   2554220882, 2821834349, 2952996808, 3210313671, 3336571891, 3584528711,
   113926993, 338241895, 666307205, 773529912, 1294757372, 1396182291,
   1695183700, 1986661051, 2177026350, 2456956037, 2730485921, 2820302411,
   3259730800, 3345764771, 3516065817, 3600352804, 4094571909, 275423344,
   430227734, 506948616, 659060556, 883997877, 958139571, 1322822218,
   1537002063, 1747873779, 1955562222, 2024104815, 2227730452, 2361852424,
   2428436474, 2756734187, 3204031479, 3329325298]

/-- SHA-256 initial hash state (the fractional parts of the square roots of
the first eight primes, as 32-bit words). -/
def shaH0 : List Nat :=
  [1779033703, 3144134277, 1013904242, 2773480762,
   1359893119, 2600822924, 528734635, 1541459225]

/-- Big-endian 64-bit byte decomposition. -/
def be64 (n : Nat) : List Nat :=
  [(n >>> 56) &&& 255, (n >>> 48) &&& 255, (n >>> 40) &&& 255, (n >>> 32) &&& 255,
   (n >>> 24) &&& 255, (n >>> 16) &&& 255, (n >>> 8) &&& 255, n &&& 255]

/-- SHA-256 message padding: append `0x80`, zeros to 56 mod 64, then the
bit length as a big-endian 64-bit quantity. -/
def shaPad (msg : List Nat) : List Nat :=
  let l := msg.length
  msg ++ [0x80] ++ List.replicate ((119 - l % 64) % 64) 0 ++ be64 (8 * l)

/-- Split a padded message into 64-byte blocks. -/
def shaBlocks (padded : List Nat) : List (List Nat) :=
  (List.range (padded.length / 64)).map (fun i => ((padded.drop (64 * i)).take 64))

/-- The sixteen big-endian 32-bit words of one 64-byte block. -/
def blockWords (block : List Nat) : List Nat :=
  (List.range 16).map (fun i =>
    (block.getD (4 * i) 0) <<< 24 ||| (block.getD (4 * i + 1) 0) <<< 16 |||
    (block.getD (4 * i + 2) 0) <<< 8 ||| block.getD (4 * i + 3) 0)

/-- Extend sixteen schedule words to sixty-four. -/
def msgSchedule (ws : List Nat) : List Nat :=
  (List.range 48).foldl
    (fun acc _ =>
      let n := acc.length
      acc ++ [w32 (acc.getD (n - 16) 0 + smallSigma0 (acc.getD (n - 15) 0) +
                   acc.getD (n - 7) 0 + smallSigma1 (acc.getD (n - 2) 0))])
    ws

/-- One SHA-256 compression round on the eight-word working state. -/
def compressStep (st : List Nat) (kw : Nat × Nat) : List Nat :=
  match st with
  | [a, b, c, d, e, f, g, h] =>
    let t1 := w32 (h + bigSigma1 e + shaCh e f g + kw.1 + kw.2)
    let t2 := w32 (bigSigma0 a + shaMaj a b c)
    [w32 (t1 + t2), a, b, c, w32 (d + t1), e, f, g]
  | other => other

/-- Process one 64-byte block against the running hash state. -/
def processBlock (H : List Nat) (block : List Nat) : List Nat :=
  let ws := msgSchedule (blockWords block)
  let st := (shaK.zip ws).foldl compressStep H
  List.zipWith (fun x y => w32 (x + y)) H st

/-- Lowercase hexadecimal digit. -/
def hexDigitChar (d : Nat) : Char :=
  if d < 10 then Char.ofNat (48 + d) else Char.ofNat (87 + d)

/-- Eight lowercase hex characters of a 32-bit word. -/
def wordHex (w : Nat) : List Char :=
  (List.range 8).map (fun j => hexDigitChar ((w >>> (28 - 4 * j)) &&& 15))

/-- SHA-256 digest of a byte list, as a 64-character lowercase hex string. -/
def sha256hex (msg : List Nat) : String :=
  ⟨((shaPad msg |> shaBlocks).foldl processBlock shaH0).flatMap wordHex⟩

/-- Model of `models.hash_text`: SHA-256 hex digest of the UTF-8 encoded text. -/
def hash_text (value : String) : String :=
  sha256hex (utf8Bytes value)

/-! ## Timestamps (`datetime` values produced by `datetime.now(timezone.utc)`) -/

/-- A UTC `datetime` value as used by the handler and the record builder. -/
structure PyDatetime where
  year : Nat
  month : Nat
  day : Nat
  hour : Nat
  minute : Nat
  second : Nat
  microsecond : Nat
deriving DecidableEq

/-- Zero-padded decimal rendering of width `w`, as strftime's numeric fields. -/
def padZeros (w : Nat) (n : Nat) : String :=
  let s := pyNatStr n
  ⟨List.replicate (w - s.data.length) '0'⟩ ++ s

/-- Python `timestamp.strftime("%Y%m%d%H")`: the hour bucket used for derived
submission identifiers (year/month/day/hour, minutes and below discarded). -/
def hour_bucket (t : PyDatetime) : String :=
  padZeros 4 t.year ++ padZeros 2 t.month ++ padZeros 2 t.day ++ padZeros 2 t.hour

/-- Model of `models.compute_submission_id`: hash of the normalized email
concatenated with the hour bucket of the timestamp. -/
def compute_submission_id (email : String) (timestamp : PyDatetime) : String :=
  hash_text (email ++ hour_bucket timestamp)

/-- Python `timestamp.isoformat()` for an aware UTC datetime (the only kind the
handler constructs): fractional seconds appear only when non-zero. -/
def isoformat (t : PyDatetime) : String :=
  padZeros 4 t.year ++ "-" ++ padZeros 2 t.month ++ "-" ++ padZeros 2 t.day ++ "T" ++
  padZeros 2 t.hour ++ ":" ++ padZeros 2 t.minute ++ ":" ++ padZeros 2 t.second ++
  (if t.microsecond = 0 then "" else "." ++ padZeros 6 t.microsecond) ++ "+00:00"

/-! ## JSON scalar values

Survey payload fields and stored record fields are JSON scalars (the payloads
the claims concern contain no nested arrays or objects in field position). -/

/-- A JSON scalar value. -/
inductive JVal where
  | str (s : String)
  | int (n : Int)
  | bool (b : Bool)
  | null
deriving DecidableEq

/-- Python `str(value)` on a JSON scalar. -/
def pyStr : JVal → String
  | .str s => s
  | .int n => pyIntStr n
  | .bool b => if b then "True" else "False"
  | .null => "None"

/-- Python truthiness of a JSON scalar (`None`, `False`, `0` and `""` are falsy). -/
def pyFalsy : JVal → Bool
  | .str s => s = ""
  | .int n => n = 0
  | .bool b => !b
  | .null => true

/-! ## `models.SurveySubmission` -/

deriving instance DecidableEq for Except

/-- A validated survey submission (the parsed pydantic model). -/
structure SurveySubmission where
  name : String
  email : String
  age : Int
  consent : Bool
  rating : Int
  comments : String
  source : String
  user_agent : Option String
  submission_id : Option String
deriving DecidableEq

/-- Python `x or y` for an optional string `x`: `None` and `""` fall through. -/
def pyOrElse (v : Option String) (dflt : String) : String :=
  match v with
  | some s => if s = "" then dflt else s
  | none => dflt

/-- Python truthiness of an optional string (`None` and `""` are falsy). -/
def pyTruthyOpt (v : Option String) : Bool :=
  match v with
  | some s => s ≠ ""
  | none => false

/-- Model of `SurveySubmission.to_storage_record`: the persisted record as an
ordered key/value list (Python dicts preserve insertion order). -/
def to_storage_record (s : SurveySubmission) (timestamp : PyDatetime)
    (ip : Option String) : List (String × JVal) :=
  let email_normalized := pyLower s.email
  let submission_id := pyOrElse s.submission_id
    (compute_submission_id email_normalized timestamp)
  [("submission_id", JVal.str submission_id),
   ("name", JVal.str s.name),
   ("consent", JVal.bool s.consent),
   ("rating", JVal.int s.rating),
   ("comments", JVal.str s.comments),
   ("source", JVal.str s.source),
   ("email", JVal.str (hash_text email_normalized)),
   ("age", JVal.str (hash_text (pyIntStr s.age))),
   ("received_at", JVal.str (isoformat timestamp))]
  ++ (match s.user_agent with
      | some ua => if ua = "" then [] else [("user_agent", JVal.str ua)]
      | none => [])
  ++ (match ip with
      | some i => if i = "" then [] else [("ip", JVal.str i)]
      | none => [])

/-! ## pydantic v1 field parsing

The model class relies on pydantic v1 (`@validator`, `conint`, `constr`,
`anystr_strip_whitespace`).  Its per-field behaviour on JSON scalars is
embedded: coercion of scalars to the annotated type, the configured
whitespace stripping, the declared constraints, and the model's own
validators, with pydantic's error messages. -/

/-- Pydantic v1 string coercion on a JSON scalar: strings pass through,
numbers and booleans are rendered with `str()` (`bool` is an `int` in Python,
but `str(True)` is `"True"`). -/
def str_coerce : JVal → Except String String
  | .str s => .ok s
  | .int n => .ok (pyIntStr n)
  | .bool b => .ok (if b then "True" else "False")
  | .null => .error "str type expected"

/-- Digits to a natural number, most significant first. -/
def digitsToNat (cs : List Char) : Nat :=
  cs.foldl (fun a c => 10 * a + (c.toNat - 48)) 0

/-- Python `int(string)`: surrounding whitespace, an optional sign, then
decimal digits (digit-group underscores are not modelled). -/
def pyParseInt (s : String) : Option Int :=
  match (pystrip s).data with
  | [] => none
  | '+' :: rest =>
    if rest ≠ [] ∧ rest.all Char.isDigit then some (digitsToNat rest) else none
  | '-' :: rest =>
    if rest ≠ [] ∧ rest.all Char.isDigit then some (-(digitsToNat rest : Int)) else none
  | cs => if cs.all Char.isDigit then some (digitsToNat cs) else none

/-- Pydantic v1 integer coercion on a JSON scalar: ints pass through, booleans
count as ints, numeric strings are parsed. -/
def int_coerce : JVal → Except String Int
  | .int n => .ok n
  | .bool b => .ok (if b then 1 else 0)
  | .str s =>
    match pyParseInt s with
    | some n => .ok n
    | none => .error "value is not a valid integer"
  | .null => .error "value is not a valid integer"

/-- Pydantic v1 boolean coercion on a JSON scalar: genuine booleans pass
through, the ints 0/1 and the usual truth-words coerce. -/
def bool_coerce : JVal → Except String Bool
  | .bool b => .ok b
  | .int n =>
    if n = 1 then .ok true
    else if n = 0 then .ok false
    else .error "value could not be parsed to a boolean"
  | .str s =>
    let t := pyLower s
    if t ∈ (["1", "on", "t", "true", "y", "yes"] : List String) then .ok true
    else if t ∈ (["0", "off", "f", "false", "n", "no"] : List String) then .ok false
    else .error "value could not be parsed to a boolean"
  | .null => .error "value could not be parsed to a boolean"

/-- Required-field handling: a missing key and an explicit `null` are the two
field-scoped failures pydantic reports before type coercion. -/
def checkRequired (v : Option JVal) : Except String JVal :=
  match v with
  | none => .error "field required"
  | some .null => .error "none is not an allowed value"
  | some x => .ok x

/-- Field `name`: required `constr(min_length=1, max_length=100)`, stripped by
`anystr_strip_whitespace`. -/
def vName (v : Option JVal) : Except String String :=
  match checkRequired v with
  | .error m => .error m
  | .ok x =>
    match str_coerce x with
    | .error m => .error m
    | .ok s0 =>
      let s := pystrip s0
      if s.length < 1 then .error "ensure this value has at least 1 characters"
      else if s.length > 100 then .error "ensure this value has at most 100 characters"
      else .ok s

/-- Splitting a character list at every occurrence of a separator, with an
accumulator for the current piece (Python `str.split(sep)`). -/
def splitAtSepAux (sep : Char) : List Char → List Char → List (List Char)
  | [], acc => [acc.reverse]
  | c :: rest, acc =>
    if c = sep then acc.reverse :: splitAtSepAux sep rest []
    else splitAtSepAux sep rest (c :: acc)

/-- Splitting a character list at every occurrence of a separator. -/
def splitAtSep (sep : Char) (cs : List Char) : List (List Char) :=
  splitAtSepAux sep cs []

/-- Syntactic shape check for an email address, standing in for the
`email-validator` library behind `EmailStr` (library code outside this
repository): one `@`, a non-empty local part, a dotted non-empty domain. -/
def isEmail (s : String) : Bool :=
  match splitAtSep '@' s.data with
  | [lp, domain] =>
    !lp.isEmpty && !lp.contains ' ' && !domain.isEmpty && !domain.contains ' ' &&
    domain.contains '.' && !(domain.head? == some '.') && !(domain.getLast? == some '.')
  | _ => false

/-- Field `email`: required `EmailStr`.  The library's internal domain-case
normalization is immaterial downstream because `to_storage_record` lowercases
the whole address before use. -/
def vEmail (v : Option JVal) : Except String String :=
  match checkRequired v with
  | .error m => .error m
  | .ok x =>
    match str_coerce x with
    | .error m => .error m
    | .ok s0 =>
      let s := pystrip s0
      if isEmail s then .ok s else .error "value is not a valid email address"

/-- Field `age`: required `conint(ge=13, le=120)`. -/
def vAge (v : Option JVal) : Except String Int :=
  match checkRequired v with
  | .error m => .error m
  | .ok x =>
    match int_coerce x with
    | .error m => .error m
    | .ok n =>
      if n < 13 then .error "ensure this value is greater than or equal to 13"
      else if 120 < n then .error "ensure this value is less than or equal to 120"
      else .ok n

/-- Field `consent`: required `bool`, then the model's `_consent_must_be_true`
validator, which rejects anything that did not coerce to `True`. -/
def vConsent (v : Option JVal) : Except String Bool :=
  match checkRequired v with
  | .error m => .error m
  | .ok x =>
    match bool_coerce x with
    | .error m => .error m
    | .ok b => if b then .ok b else .error "consent must be true"

/-- Field `rating`: required `conint(ge=1, le=5)`. -/
def vRating (v : Option JVal) : Except String Int :=
  match checkRequired v with
  | .error m => .error m
  | .ok x =>
    match int_coerce x with
    | .error m => .error m
    | .ok n =>
      if n < 1 then .error "ensure this value is greater than or equal to 1"
      else if 5 < n then .error "ensure this value is less than or equal to 5"
      else .ok n

/-- Field `comments`: default `""`, the `_default_comments` pre-validator
(`value or ""`), string coercion, stripping, `max_length=1000`. -/
def vComments (v : Option JVal) : Except String String :=
  match str_coerce (if pyFalsy (v.getD (.str "")) then .str "" else v.getD (.str "")) with
  | .error m => .error m
  | .ok s0 =>
    let s := pystrip s0
    if s.length > 1000 then .error "ensure this value has at most 1000 characters"
    else .ok s

/-- Field `source`: default `"other"`, then the `_normalize_source`
pre-validator — falsy values become `"other"`, anything else is rendered with
`str()`, stripped and lowercased, and values outside the enumerated set fall
back to `"other"`.  The subsequent `constr(strip_whitespace=True)` stage is a
no-op on these outputs.  This field never fails. -/
def vSource (v : Option JVal) : String :=
  let raw := v.getD (.str "other")
  if pyFalsy raw then "other"
  else
    let normalized := pyLower (pystrip (pyStr raw))
    if normalized ∈ (["web", "mobile", "other"] : List String) then normalized
    else "other"

/-- Fields `user_agent` and `submission_id`: `Optional[str]` with default
`None`; present scalars are coerced to strings and stripped by
`anystr_strip_whitespace`.  On JSON scalars these fields never fail. -/
def vOptStr (v : Option JVal) : Option String :=
  match v with
  | none => none
  | some .null => none
  | some x => some (pystrip (pyStr x))

/-- A raw JSON request body, field by field (`none` marks an absent key;
pydantic ignores unknown extra keys). -/
structure RawPayload where
  name : Option JVal := none
  email : Option JVal := none
  age : Option JVal := none
  consent : Option JVal := none
  rating : Option JVal := none
  comments : Option JVal := none
  source : Option JVal := none
  user_agent : Option JVal := none
  submission_id : Option JVal := none
deriving DecidableEq

/-- The field-scoped error entry contributed by one field's outcome. -/
def errList {α : Type} (field : String) : Except String α → List (String × String)
  | .error m => [(field, m)]
  | .ok _ => []

/-- All field-scoped validation errors of a payload, in field declaration
order — pydantic v1 validates every field and accumulates the failures. -/
def fieldErrors (raw : RawPayload) : List (String × String) :=
  errList "name" (vName raw.name) ++ errList "email" (vEmail raw.email) ++
  errList "age" (vAge raw.age) ++ errList "consent" (vConsent raw.consent) ++
  errList "rating" (vRating raw.rating) ++ errList "comments" (vComments raw.comments)

/-- Model of `SurveySubmission(**payload)`: either every field parses and a
validated submission is produced, or the accumulated per-field error list is
raised as a `ValidationError`. -/
def validateSubmission (raw : RawPayload) :
    Except (List (String × String)) SurveySubmission :=
  match vName raw.name, vEmail raw.email, vAge raw.age, vConsent raw.consent,
        vRating raw.rating, vComments raw.comments with
  | .ok n, .ok e, .ok a, .ok c, .ok r, .ok cm =>
    .ok { name := n, email := e, age := a, consent := c, rating := r,
          comments := cm, source := vSource raw.source,
          user_agent := vOptStr raw.user_agent,
          submission_id := vOptStr raw.submission_id }
  | _, _, _, _, _, _ => .error (fieldErrors raw)

/-! ## `storage.py` -/

/-- A persisted record: the ordered key/value list `to_storage_record` built. -/
abbrev StorageRecord := List (String × JVal)

/-- JSON string escaping as `json.dumps` performs it with `ensure_ascii=False`:
quote, backslash and control characters are escaped, everything else passes
through. -/
def escapeJsonChar (c : Char) : List Char :=
  if c = '"' then ['\\', '"']
  else if c = '\\' then ['\\', '\\']
  else if c = '\n' then ['\\', 'n']
  else if c = '\t' then ['\\', 't']
  else if c = '\r' then ['\\', 'r']
  else if c = '\x08' then ['\\', 'b']
  else if c = '\x0c' then ['\\', 'f']
  else if c.toNat < 32 then
    ['\\', 'u', '0', '0', hexDigitChar (c.toNat / 16), hexDigitChar (c.toNat % 16)]
  else [c]

/-- A JSON string literal, escaped and quoted. -/
def jsonQuote (s : String) : String :=
  "\"" ++ ⟨s.data.flatMap escapeJsonChar⟩ ++ "\""

/-- JSON rendering of a scalar value. -/
def jsonOfJVal : JVal → String
  | .str s => jsonQuote s
  | .int n => pyIntStr n
  | .bool b => if b then "true" else "false"
  | .null => "null"

/-- The comma-separated `"key": value` members of a serialized JSON object,
with `json.dumps`'s default separators. -/
def serializeFields : List (String × JVal) → String
  | [] => ""
  | [kv] => jsonQuote kv.1 ++ ": " ++ jsonOfJVal kv.2
  | kv :: rest => jsonQuote kv.1 ++ ": " ++ jsonOfJVal kv.2 ++ ", " ++ serializeFields rest

/-- Model of `json.dumps(record, ensure_ascii=False)` with the default
separators: one flat JSON object per record. -/
def serializeRecord (r : StorageRecord) : String :=
  "\x7b" ++ serializeFields r ++ "\x7d"

/-- The newline-delimited store as it sits on disk: a path maps to the list of
its lines when the file exists, and to `none` when it does not. -/
def FileStore := String → Option (List String)

/-- The empty file system: no store file exists yet. -/
def emptyStore : FileStore := fun _ => none

/-- Model of `storage.RESULTS_PATH`. -/
def RESULTS_PATH : String := "data/survey.ndjson"

/-- Model of `storage.append_json_line`: serialize the record and append it as
one line to the fixed `RESULTS_PATH` file, creating it (and its parent
directory) when absent. -/
def append_json_line (record : StorageRecord) (fs : FileStore) : FileStore :=
  fun p =>
    if p = RESULTS_PATH then some (((fs RESULTS_PATH).getD []) ++ [serializeRecord record])
    else fs p

/-- Model of `storage.iter_json_lines`: when the file is missing the sequence
is empty; otherwise each line is stripped and blank lines are skipped, in file
order.  Each returned line is the JSON text of one stored record (the
`json.loads` decoding step is kept at the text level). -/
def iter_json_lines (path : String) (fs : FileStore) : List String :=
  match fs path with
  | none => []
  | some lines => (lines.map pystrip).filter (fun l => l ≠ "")

/-- Modelled from the spec: `append_record`, which `app.py` imports from the
storage module, is absent from `src/storage.py` (that file only defines
`append_json_line` against the fixed `RESULTS_PATH`).  Per §4.5 the record is
appended as one serialized line to the end of the target location passed by
the caller, the location being created if absent. -/
def append_record (record : StorageRecord) (path : String) (fs : FileStore) : FileStore :=
  fun p =>
    if p = path then some (((fs path).getD []) ++ [serializeRecord record])
    else fs p

/-! ## `app.py` — the `/v1/survey` handler

The handler-level store is carried as the list of records in the configured
data file.  Modelled from the spec: `iter_records` and `append_record`
(imported by `app.py`, absent from `src/storage.py`) read the stored records
oldest first and append one record at the end, so the scan below walks the
list in order and a non-duplicate is appended at the end. -/

/-- The response the handler returns for a submission request. -/
inductive SurveyResponse where
  | created (submission_id : Option JVal)
  | unprocessable (details : List (String × String))
  | badRequest
deriving DecidableEq

/-- The eight fields of the dedupe key, in the order `app.py` compares them. -/
def dedupe_keys : List String :=
  ["submission_id", "email", "age", "name", "consent", "rating", "comments", "source"]

/-- One iteration of the dedupe scan: `existing.get(k) == record.get(k)` for
every dedupe-key field (`dict.get` yields `None` for a missing key, modelled
by the `Option` equality). -/
def dedupeMatch (existing record : StorageRecord) : Bool :=
  dedupe_keys.all (fun k => decide (existing.lookup k = record.lookup k))

/-- User-agent backfill from the request header: only when the submission's
own `user_agent` is falsy and the header value is truthy. -/
def backfillUserAgent (sub : SurveySubmission) (headerUA : Option String) :
    SurveySubmission :=
  if pyTruthyOpt sub.user_agent then sub
  else
    match headerUA with
    | some h => if h = "" then sub else { sub with user_agent := some h }
    | none => sub

/-- Model of the `POST /v1/survey` handler: JSON check, validation, user-agent
backfill, record building at the server-assigned receipt time, the linear
dedupe scan, the conditional append, and the 201 response carrying the
record's `submission_id`. -/
def submit_survey (payload : Option RawPayload) (headerUA : Option String)
    (now : PyDatetime) (clientIp : Option String)
    (store : List StorageRecord) : SurveyResponse × List StorageRecord :=
  match payload with
  | none => (.badRequest, store)
  | some raw =>
    match validateSubmission raw with
    | .error errs => (.unprocessable errs, store)
    | .ok parsed =>
      let submission := backfillUserAgent parsed headerUA
      let record := to_storage_record submission now clientIp
      let is_duplicate := store.any (fun existing => dedupeMatch existing record)
      let store' := if is_duplicate then store else store ++ [record]
      (.created (record.lookup "submission_id"), store')


/-! ## Concrete inputs used in closed-form checks

These mirror the fixtures of the repository's own test suite. -/

/-- The raw happy-path payload from the test suite. -/
def avaRaw : RawPayload :=
  { name := some (.str "Ava"), email := some (.str "ava@example.com"),
    age := some (.int 22), consent := some (.bool true), rating := some (.int 5),
    comments := some (.str "Great!"), user_agent := some (.str "frontend-test"),
    source := some (.str "web") }

/-- The validated submission the happy-path payload parses to. -/
def avaSub : SurveySubmission :=
  { name := "Ava", email := "ava@example.com", age := 22, consent := true,
    rating := 5, comments := "Great!", source := "web",
    user_agent := some "frontend-test", submission_id := none }

/-- A receipt timestamp late in one UTC hour. -/
def tA : PyDatetime := ⟨2025, 1, 2, 10, 59, 3, 0⟩

/-- A receipt timestamp shortly after `tA`, in the next UTC hour. -/
def tB : PyDatetime := ⟨2025, 1, 2, 11, 0, 1, 0⟩

/-- The happy-path payload with the consent flag given as the JSON number 1. -/
def rawConsentOne : RawPayload := { avaRaw with consent := some (.int 1) }

/-- The happy-path payload with consent explicitly false. -/
def rawConsentFalse : RawPayload := { avaRaw with consent := some (.bool false) }

/-- A payload violating five field constraints at once. -/
def rawMulti : RawPayload :=
  { name := some (.str "   "), email := some (.str "not-an-email"),
    age := some (.int 5), consent := some (.bool false), rating := some (.int 9) }

/-- The happy-path payload carrying a whitespace-only submission identifier. -/
def rawBlankSid : RawPayload := { avaRaw with submission_id := some (.str "   ") }

/-- The validated submission with an empty-string submission identifier. -/
def subEmptySid : SurveySubmission := { avaSub with submission_id := some "" }

/-- The validated submission with an explicit caller-supplied identifier. -/
def subCustomSid : SurveySubmission :=
  { avaSub with submission_id := some "custom-id-123" }

/-- A small stored record used to exercise the storage layer. -/
def recW : StorageRecord := [("submission_id", .str "custom-id-123"), ("rating", .int 5)]

/-- A second small stored record. -/
def recX : StorageRecord := [("submission_id", .str "id-2"), ("consent", .bool true)]

/-- The values stored in a record, in field order. -/
def recordValues (r : StorageRecord) : List JVal := r.map Prod.snd

/-! ## General lemmas about the embedded operations -/

theorem lookup_submission_id (s : SurveySubmission) (t : PyDatetime) (ip : Option String) :
    (to_storage_record s t ip).lookup "submission_id"
      = some (.str (pyOrElse s.submission_id (compute_submission_id (pyLower s.email) t))) := rfl

theorem lookup_name (s : SurveySubmission) (t : PyDatetime) (ip : Option String) :
    (to_storage_record s t ip).lookup "name" = some (.str s.name) := rfl

theorem lookup_email (s : SurveySubmission) (t : PyDatetime) (ip : Option String) :
    (to_storage_record s t ip).lookup "email" = some (.str (hash_text (pyLower s.email))) := rfl

theorem lookup_age (s : SurveySubmission) (t : PyDatetime) (ip : Option String) :
    (to_storage_record s t ip).lookup "age" = some (.str (hash_text (pyIntStr s.age))) := rfl

theorem lookup_consent (s : SurveySubmission) (t : PyDatetime) (ip : Option String) :
    (to_storage_record s t ip).lookup "consent" = some (.bool s.consent) := rfl

theorem lookup_rating (s : SurveySubmission) (t : PyDatetime) (ip : Option String) :
    (to_storage_record s t ip).lookup "rating" = some (.int s.rating) := rfl

theorem lookup_comments (s : SurveySubmission) (t : PyDatetime) (ip : Option String) :
    (to_storage_record s t ip).lookup "comments" = some (.str s.comments) := rfl

theorem lookup_source (s : SurveySubmission) (t : PyDatetime) (ip : Option String) :
    (to_storage_record s t ip).lookup "source" = some (.str s.source) := rfl

theorem recordValues_eq (s : SurveySubmission) (t : PyDatetime) (ip : Option String) :
    recordValues (to_storage_record s t ip) =
      [.str (pyOrElse s.submission_id (compute_submission_id (pyLower s.email) t)),
       .str s.name, .bool s.consent, .int s.rating, .str s.comments, .str s.source,
       .str (hash_text (pyLower s.email)), .str (hash_text (pyIntStr s.age)),
       .str (isoformat t)]
      ++ (match s.user_agent with
          | some ua => if ua = "" then [] else [JVal.str ua]
          | none => [])
      ++ (match ip with
          | some i => if i = "" then [] else [JVal.str i]
          | none => []) := by
  rcases hua : s.user_agent with _ | ua <;> rcases hip : ip with _ | i <;>
    simp [recordValues, to_storage_record, hua, hip] <;> split_ifs <;> simp

theorem recordValues_str_cases (s : SurveySubmission) (t : PyDatetime)
    (ip : Option String) (v : String)
    (h : JVal.str v ∈ recordValues (to_storage_record s t ip)) :
    v ∈ ([s.name, s.comments, s.source, isoformat t,
          hash_text (pyLower s.email), hash_text (pyIntStr s.age),
          compute_submission_id (pyLower s.email) t]
         ++ s.submission_id.toList ++ s.user_agent.toList ++ ip.toList : List String) := by
  rw [recordValues_eq] at h
  simp only [List.mem_append, List.mem_cons, List.not_mem_nil, or_false,
    JVal.str.injEq, reduceCtorEq, false_or] at h ⊢
  rcases h with (h | h) | h
  · rcases h with h | h | h | h | h | h | h
    · rcases hsid : s.submission_id with _ | sid
      · rw [hsid] at h
        simp [pyOrElse] at h
        simp [h]
      · rw [hsid] at h
        by_cases he : sid = "" <;> simp [pyOrElse, he] at h <;> simp [h, hsid, he]
    all_goals simp [h]
  · rcases hua : s.user_agent with _ | ua
    · rw [hua] at h
      simp at h
    · rw [hua] at h
      by_cases he : ua = "" <;> simp [he] at h <;> simp [h, hua]
  · rcases hip : ip with _ | i
    · rw [hip] at h
      simp at h
    · rw [hip] at h
      by_cases he : i = "" <;> simp [he] at h <;> simp [h, hip]

theorem recordValues_int_cases (s : SurveySubmission) (t : PyDatetime)
    (ip : Option String) (n : Int)
    (h : JVal.int n ∈ recordValues (to_storage_record s t ip)) : n = s.rating := by
  rw [recordValues_eq] at h
  rcases hua : s.user_agent with _ | ua <;> rcases hip : ip with _ | i <;>
    (simp [hua, hip] at h; exact h)

theorem validate_ok_fields (raw : RawPayload) (s : SurveySubmission)
    (h : validateSubmission raw = .ok s) :
    vName raw.name = .ok s.name ∧ vEmail raw.email = .ok s.email ∧
    vAge raw.age = .ok s.age ∧ vConsent raw.consent = .ok s.consent ∧
    vRating raw.rating = .ok s.rating ∧ vComments raw.comments = .ok s.comments ∧
    s.source = vSource raw.source ∧ s.user_agent = vOptStr raw.user_agent ∧
    s.submission_id = vOptStr raw.submission_id := by
  unfold validateSubmission at h
  split at h
  · obtain rfl : _ = s := by injection h
    simp_all
  · cases h

theorem validate_error_eq (raw : RawPayload) (errs : List (String × String))
    (h : validateSubmission raw = .error errs) : errs = fieldErrors raw := by
  unfold validateSubmission at h
  split at h
  · cases h
  · cases h
    rfl

theorem validate_cases (raw : RawPayload) :
    (∃ s, validateSubmission raw = .ok s ∧ fieldErrors raw = []) ∨
    (validateSubmission raw = .error (fieldErrors raw) ∧ fieldErrors raw ≠ []) := by
  unfold validateSubmission
  split
  · rename_i n e a c r cm hn he ha hc hr hcm
    exact Or.inl ⟨_, rfl, by simp [fieldErrors, hn, he, ha, hc, hr, hcm, errList]⟩
  · rename_i hne
    refine Or.inr ⟨rfl, ?_⟩
    intro hempty
    have hasOk : ∀ {α : Type} (f : String) (r : Except String α),
        errList f r = [] → ∃ v, r = .ok v := by
      intro α f r h
      cases r
      · simp [errList] at h
      · exact ⟨_, rfl⟩
    simp only [fieldErrors, List.append_eq_nil] at hempty
    obtain ⟨⟨⟨⟨⟨e1, e2⟩, e3⟩, e4⟩, e5⟩, e6⟩ := hempty
    obtain ⟨n, hn⟩ := hasOk _ _ e1
    obtain ⟨e, he⟩ := hasOk _ _ e2
    obtain ⟨a, ha⟩ := hasOk _ _ e3
    obtain ⟨c, hc⟩ := hasOk _ _ e4
    obtain ⟨r, hr⟩ := hasOk _ _ e5
    obtain ⟨cm, hcm⟩ := hasOk _ _ e6
    exact hne n e a c r cm hn he ha hc hr hcm

theorem errList_key {α : Type} (f : String) (r : Except String α)
    (p : String × String) (h : p ∈ errList f r) : p.1 = f := by
  cases r <;> simp [errList] at h
  rw [h]

theorem vSource_mem (v : Option JVal) :
    vSource v ∈ (["web", "mobile", "other"] : List String) := by
  simp only [vSource]
  split_ifs with h1 h2
  · simp
  · exact h2
  · simp

theorem vConsent_ok_true (v : Option JVal) (b : Bool) (h : vConsent v = .ok b) :
    b = true := by
  unfold vConsent at h
  split at h
  · cases h
  · split at h
    · cases h
    · split at h
      · rename_i hb0
        injection h with h2
        rw [← h2]
        exact hb0
      · cases h

theorem pystrip_all_space (w : String) (h : w.data.all pyIsSpace = true) :
    pystrip w = "" := by
  unfold pystrip
  have h1 : w.data.dropWhile pyIsSpace = [] :=
    List.dropWhile_eq_nil_iff.mpr (by simpa [List.all_eq_true] using h)
  rw [h1]
  rfl

theorem backfill_preserves (sub : SurveySubmission) (h : Option String) :
    (backfillUserAgent sub h).name = sub.name ∧
    (backfillUserAgent sub h).email = sub.email ∧
    (backfillUserAgent sub h).age = sub.age ∧
    (backfillUserAgent sub h).consent = sub.consent ∧
    (backfillUserAgent sub h).rating = sub.rating ∧
    (backfillUserAgent sub h).comments = sub.comments ∧
    (backfillUserAgent sub h).source = sub.source ∧
    (backfillUserAgent sub h).submission_id = sub.submission_id := by
  rcases h with _ | v <;> simp [backfillUserAgent] <;> split_ifs <;> simp

theorem dedupe_lookups_agree (s : SurveySubmission) (ua1 ua2 : Option String)
    (t1 t2 : PyDatetime) (ip1 ip2 : Option String)
    (hkey : (∃ sid, s.submission_id = some sid ∧ sid ≠ "") ∨ hour_bucket t1 = hour_bucket t2) :
    ∀ k ∈ dedupe_keys,
      (to_storage_record (backfillUserAgent s ua1) t1 ip1).lookup k
        = (to_storage_record (backfillUserAgent s ua2) t2 ip2).lookup k := by
  obtain ⟨h1n, h1e, h1a, h1c, h1r, h1cm, h1s, h1sid⟩ := backfill_preserves s ua1
  obtain ⟨h2n, h2e, h2a, h2c, h2r, h2cm, h2s, h2sid⟩ := backfill_preserves s ua2
  have hsid : pyOrElse s.submission_id (compute_submission_id (pyLower s.email) t1)
      = pyOrElse s.submission_id (compute_submission_id (pyLower s.email) t2) := by
    rcases hkey with ⟨sid, hs, hne⟩ | hb
    · simp [pyOrElse, hs, hne]
    · simp [compute_submission_id, hb]
  intro k hk
  simp only [dedupe_keys, List.mem_cons, List.not_mem_nil, or_false] at hk
  rcases hk with rfl | rfl | rfl | rfl | rfl | rfl | rfl | rfl
  · rw [lookup_submission_id, lookup_submission_id, h1sid, h2sid, h1e, h2e, hsid]
  · rw [lookup_email, lookup_email, h1e, h2e]
  · rw [lookup_age, lookup_age, h1a, h2a]
  · rw [lookup_name, lookup_name, h1n, h2n]
  · rw [lookup_consent, lookup_consent, h1c, h2c]
  · rw [lookup_rating, lookup_rating, h1r, h2r]
  · rw [lookup_comments, lookup_comments, h1cm, h2cm]
  · rw [lookup_source, lookup_source, h1s, h2s]

theorem dedupeMatch_of_agree (ex r1 r2 : StorageRecord)
    (hagree : ∀ k ∈ dedupe_keys, r1.lookup k = r2.lookup k)
    (hm : dedupeMatch ex r1 = true) : dedupeMatch ex r2 = true := by
  simp only [dedupeMatch, List.all_eq_true, decide_eq_true_eq] at hm ⊢
  intro k hk
  rw [← hagree k hk]
  exact hm k hk

theorem dedupeMatch_self_of_agree (r1 r2 : StorageRecord)
    (hagree : ∀ k ∈ dedupe_keys, r1.lookup k = r2.lookup k) :
    dedupeMatch r1 r2 = true := by
  simp only [dedupeMatch, List.all_eq_true, decide_eq_true_eq]
  exact hagree

theorem digitChar_ne_newline (d : Nat) (h : d < 10) : digitChar d ≠ '\n' := by
  have : ∀ d, d < 10 → digitChar d ≠ '\n' := by decide
  exact this d h

theorem natDigits_ne_newline (fuel n : Nat) : '\n' ∉ natDigits fuel n := by
  induction fuel generalizing n with
  | zero => simp [natDigits]
  | succ fuel ih =>
    unfold natDigits
    split
    · rename_i h
      simp [(digitChar_ne_newline n h).symm]
    · simp only [List.mem_append, List.mem_singleton]
      rintro (h | h)
      · exact ih (n / 10) h
      · exact digitChar_ne_newline (n % 10) (Nat.mod_lt n (by decide)) h.symm

theorem pyIntStr_ne_newline (n : Int) : '\n' ∉ (pyIntStr n).data := by
  cases n with
  | ofNat m => exact natDigits_ne_newline (m + 1) m
  | negSucc m =>
    simp only [pyIntStr, String.data_append]
    intro hm
    rcases List.mem_append.mp hm with h | h
    · exact absurd h (by decide)
    · exact natDigits_ne_newline (m + 2) (m + 1) h

theorem hexDigitChar_ne_newline (d : Nat) (h : d < 16) : hexDigitChar d ≠ '\n' := by
  have : ∀ d, d < 16 → hexDigitChar d ≠ '\n' := by decide
  exact this d h

theorem escapeJsonChar_ne_newline (c : Char) : '\n' ∉ escapeJsonChar c := by
  unfold escapeJsonChar
  split_ifs with h1 h2 h3 h4 h5 h6 h7 h8
  · decide
  · decide
  · decide
  · decide
  · decide
  · decide
  · decide
  · simp only [List.mem_cons, List.not_mem_nil, or_false]
    rintro (h | h | h | h | h | h) <;> first
      | (exact absurd h.symm (hexDigitChar_ne_newline _ (by omega)))
      | simp_all
  · simp only [List.mem_singleton]
    intro h
    rw [← h] at h8
    exact h8 (by decide)

theorem jsonQuote_ne_newline (s : String) : '\n' ∉ (jsonQuote s).data := by
  simp only [jsonQuote, String.data_append]
  intro h
  rcases List.mem_append.mp h with h | h
  · rcases List.mem_append.mp h with h | h
    · simp at h
    · obtain ⟨a, _, ha⟩ := List.mem_flatMap.mp h
      exact escapeJsonChar_ne_newline a ha
  · simp at h

theorem jsonOfJVal_ne_newline (v : JVal) : '\n' ∉ (jsonOfJVal v).data := by
  cases v with
  | str s => exact jsonQuote_ne_newline s
  | int n => exact pyIntStr_ne_newline n
  | bool b => cases b <;> decide
  | null => decide

theorem serializeFields_ne_newline (r : List (String × JVal)) :
    '\n' ∉ (serializeFields r).data := by
  induction r with
  | nil => decide
  | cons kv rest ih =>
    cases rest with
    | nil =>
      simp only [serializeFields, String.data_append]
      intro h
      rcases List.mem_append.mp h with h | h
      · rcases List.mem_append.mp h with h | h
        · exact jsonQuote_ne_newline kv.1 h
        · simp at h
      · exact jsonOfJVal_ne_newline kv.2 h
    | cons kv2 rest2 =>
      simp only [serializeFields, String.data_append]
      intro h
      rcases List.mem_append.mp h with h | h
      · rcases List.mem_append.mp h with h | h
        · rcases List.mem_append.mp h with h | h
          · rcases List.mem_append.mp h with h | h
            · exact jsonQuote_ne_newline kv.1 h
            · simp at h
          · exact jsonOfJVal_ne_newline kv.2 h
        · simp at h
      · exact ih h

theorem serializeRecord_data (r : StorageRecord) :
    (serializeRecord r).data = '\x7b' :: ((serializeFields r).data ++ ['\x7d']) := by
  simp [serializeRecord, String.data_append]

theorem serializeRecord_ne_newline (r : StorageRecord) :
    '\n' ∉ (serializeRecord r).data := by
  rw [serializeRecord_data]
  simp only [List.mem_cons, List.mem_append, List.mem_singleton]
  rintro (h | h | h | h)
  · cases h
  · exact serializeFields_ne_newline r h
  · cases h
  · cases h

theorem pystrip_of_nonspace_ends (a b : Char) (mid : List Char)
    (ha : pyIsSpace a = false) (hb : pyIsSpace b = false) :
    pystrip ⟨a :: (mid ++ [b])⟩ = ⟨a :: (mid ++ [b])⟩ := by
  unfold pystrip
  simp [List.dropWhile_cons, ha, hb, List.reverse_append]

theorem pystrip_serializeRecord (r : StorageRecord) :
    pystrip (serializeRecord r) = serializeRecord r := by
  have hd : serializeRecord r = ⟨'\x7b' :: ((serializeFields r).data ++ ['\x7d'])⟩ := by
    have := serializeRecord_data r
    cases hs : serializeRecord r
    rw [hs] at this
    simp at this
    rw [this]
  rw [hd]
  exact pystrip_of_nonspace_ends _ _ _ (by decide) (by decide)

theorem serializeRecord_ne_empty (r : StorageRecord) : serializeRecord r ≠ "" := by
  intro h
  have := serializeRecord_data r
  rw [h] at this
  cases this

theorem iter_append_json (r : StorageRecord) (fs : FileStore) :
    iter_json_lines RESULTS_PATH (append_json_line r fs)
      = iter_json_lines RESULTS_PATH fs ++ [serializeRecord r] := by
  unfold iter_json_lines append_json_line
  simp only [if_pos rfl]
  cases hf : fs RESULTS_PATH with
  | none => simp [hf, pystrip_serializeRecord, serializeRecord_ne_empty]
  | some lines => simp [hf, pystrip_serializeRecord, serializeRecord_ne_empty]

theorem iter_appendMany (rs : List StorageRecord) (fs : FileStore) :
    iter_json_lines RESULTS_PATH (rs.foldl (fun f r => append_json_line r f) fs)
      = iter_json_lines RESULTS_PATH fs ++ rs.map serializeRecord := by
  induction rs generalizing fs with
  | nil => simp
  | cons r rest ih => simp [List.foldl_cons, ih, iter_append_json]

/-! ## The claims -/

/-- C1: for every valid submission the stored record's `email` field is the
digest of the lowercased email and its `age` field is the digest of the
decimal string of the age; and whenever none of the carried-through inputs
(name, comments, source, identifiers, user agent, client address, timestamp
text, digests) happens to spell the plaintext email or age, neither plaintext
occurs anywhere among the persisted record's values — the only integer stored
is the rating, which a valid submission's age (at least 13, rating at most 5)
can never equal. -/
theorem email_and_age_stored_hashed (s : SurveySubmission) (t : PyDatetime)
    (ip : Option String) (hage : 13 ≤ s.age) (hrating : s.rating ≤ 5)
    (hclean : ∀ x ∈ [s.name, s.comments, s.source, isoformat t,
        hash_text (pyLower s.email), hash_text (pyIntStr s.age),
        compute_submission_id (pyLower s.email) t]
        ++ s.submission_id.toList ++ s.user_agent.toList ++ ip.toList,
        x ≠ s.email ∧ x ≠ pyLower s.email ∧ x ≠ pyIntStr s.age) :
    (to_storage_record s t ip).lookup "email"
      = some (.str (hash_text (pyLower s.email))) ∧
    (to_storage_record s t ip).lookup "age"
      = some (.str (hash_text (pyIntStr s.age))) ∧
    JVal.str s.email ∉ recordValues (to_storage_record s t ip) ∧
    JVal.str (pyLower s.email) ∉ recordValues (to_storage_record s t ip) ∧
    JVal.str (pyIntStr s.age) ∉ recordValues (to_storage_record s t ip) ∧
    JVal.int s.age ∉ recordValues (to_storage_record s t ip) := by
  refine ⟨lookup_email s t ip, lookup_age s t ip, ?_, ?_, ?_, ?_⟩
  · intro hmem
    exact (hclean s.email (recordValues_str_cases s t ip s.email hmem)).1 rfl
  · intro hmem
    exact (hclean _ (recordValues_str_cases s t ip _ hmem)).2.1 rfl
  · intro hmem
    exact (hclean _ (recordValues_str_cases s t ip _ hmem)).2.2 rfl
  · intro hmem
    have := recordValues_int_cases s t ip s.age hmem
    omega

/-- C1 witness: the happy-path submission at a concrete receipt time stores
the two known digests and no plaintext email or age value. -/
theorem email_and_age_stored_hashed_witness :
    (to_storage_record avaSub tA (some "203.0.113.9")).lookup "email"
      = some (.str "3c1be12adaf645e5e7e2d2dd13f9c38328526d457adad7a5647c82c10aec69cb") ∧
    (to_storage_record avaSub tA (some "203.0.113.9")).lookup "age"
      = some (.str "785f3ec7eb32f30b90cd0fcf3657d388b5ff4297f2f9716ff66e9b69c05ddd09") ∧
    JVal.str "ava@example.com" ∉ recordValues (to_storage_record avaSub tA (some "203.0.113.9")) ∧
    JVal.str "22" ∉ recordValues (to_storage_record avaSub tA (some "203.0.113.9")) ∧
    JVal.int 22 ∉ recordValues (to_storage_record avaSub tA (some "203.0.113.9")) := by
  have h := email_and_age_stored_hashed avaSub tA (some "203.0.113.9")
    (by decide) (by decide) (by decide)
  exact ⟨h.1.trans (by decide), h.2.1.trans (by decide), h.2.2.1, h.2.2.2.2.1, h.2.2.2.2.2⟩

/-- C2 counterexample: the identical valid payload without an explicit
submission_id, submitted at 10:59 and again at 11:00 UTC, is stored twice
(the derived identifiers fall in different hour buckets, so the dedupe scan
finds no match) and the two 201 responses carry different submission_ids —
refuting the claim as universally stated. -/
theorem resubmission_two_records_across_hour_buckets :
    (submit_survey (some avaRaw) none tB none
        (submit_survey (some avaRaw) none tA none []).2).2.length = 2 ∧
    (submit_survey (some avaRaw) none tA none []).1
      ≠ (submit_survey (some avaRaw) none tB none
          (submit_survey (some avaRaw) none tA none []).2).1 := by
  constructor
  · decide
  · decide

/-- C2 (amended): submitting the identical valid payload twice stores at most
one new record and returns the same 201 submission_id for both calls,
provided the payload carries an explicit nonempty submission_id or the two
receipt times fall in the same UTC hour bucket (the dedupe tuple — built from
submission_id, the email and age digests, name, consent, rating, comments and
source, receipt time and client metadata excluded — then matches on the full
linear scan and the append is skipped). -/
theorem resubmission_idempotent_same_bucket_or_explicit_id
    (raw : RawPayload) (s : SurveySubmission) (ua1 ua2 : Option String)
    (t1 t2 : PyDatetime) (ip1 ip2 : Option String) (store : List StorageRecord)
    (hok : validateSubmission raw = .ok s)
    (hkey : (∃ sid, s.submission_id = some sid ∧ sid ≠ "") ∨ hour_bucket t1 = hour_bucket t2) :
    (submit_survey (some raw) ua2 t2 ip2 (submit_survey (some raw) ua1 t1 ip1 store).2).2
      = (submit_survey (some raw) ua1 t1 ip1 store).2 ∧
    ((submit_survey (some raw) ua1 t1 ip1 store).2 = store ∨
      (submit_survey (some raw) ua1 t1 ip1 store).2
        = store ++ [to_storage_record (backfillUserAgent s ua1) t1 ip1]) ∧
    ∃ sid,
      (submit_survey (some raw) ua1 t1 ip1 store).1 = .created (some (.str sid)) ∧
      (submit_survey (some raw) ua2 t2 ip2 (submit_survey (some raw) ua1 t1 ip1 store).2).1
        = .created (some (.str sid)) := by
  have hagree := dedupe_lookups_agree s ua1 ua2 t1 t2 ip1 ip2 hkey
  simp only [submit_survey, hok]
  set rec1 := to_storage_record (backfillUserAgent s ua1) t1 ip1 with hrec1
  set rec2 := to_storage_record (backfillUserAgent s ua2) t2 ip2 with hrec2
  have hsids : rec1.lookup "submission_id" = rec2.lookup "submission_id" :=
    hagree _ (by simp [dedupe_keys])
  have hsidv : rec1.lookup "submission_id"
      = some (.str (pyOrElse s.submission_id (compute_submission_id (pyLower s.email) t1))) := by
    rw [hrec1, lookup_submission_id, (backfill_preserves s ua1).2.2.2.2.2.2.2,
      (backfill_preserves s ua1).2.1]
  have hdup2 : ∀ st1 : List StorageRecord, (rec1 ∈ st1 ∨ ∃ ex ∈ st1, dedupeMatch ex rec1 = true) →
      st1.any (fun ex => dedupeMatch ex rec2) = true := by
    intro st1 hin
    rw [List.any_eq_true]
    rcases hin with hin | ⟨ex, hex, hm⟩
    · exact ⟨rec1, hin, dedupeMatch_self_of_agree rec1 rec2 hagree⟩
    · exact ⟨ex, hex, dedupeMatch_of_agree ex rec1 rec2 hagree hm⟩
  cases hany : store.any (fun ex => dedupeMatch ex rec1) with
  | true =>
    obtain ⟨ex, hex, hm⟩ := List.any_eq_true.mp hany
    have h2 := hdup2 store (Or.inr ⟨ex, hex, hm⟩)
    simp only [hany, if_true, h2]
    exact ⟨trivial, Or.inl trivial, ⟨_, by rw [hsidv], by rw [← hsids, hsidv]⟩⟩
  | false =>
    have h2 := hdup2 (store ++ [rec1]) (Or.inl (by simp))
    simp only [hany, h2, Bool.false_eq_true, if_false, if_true]
    exact ⟨trivial, Or.inr trivial, ⟨_, by rw [hsidv], by rw [← hsids, hsidv]⟩⟩

/-- C2 witness: the happy-path payload submitted twice at the same receipt
time leaves the store unchanged on the second call and both responses carry
the derived identifier. -/
theorem resubmission_idempotent_same_bucket_or_explicit_id_witness :
    (submit_survey (some avaRaw) none tA none
        (submit_survey (some avaRaw) none tA none []).2).2
      = (submit_survey (some avaRaw) none tA none []).2 ∧
    (submit_survey (some avaRaw) none tA none []).1
      = .created (some (.str
          "332df7bb6b710ae623433f3fafc37603315495dfca212336a9484d36badaad30")) := by
  have h := resubmission_idempotent_same_bucket_or_explicit_id avaRaw avaSub
    none none tA tA none none [] (by decide) (Or.inr rfl)
  exact ⟨h.1, by decide⟩

/-- C3: when no submission_id was supplied, the stored identifier is
`hash_text` of the lowercased email concatenated with the `strftime`
year/month/day/hour bucket of the receipt time; any two valid submissions
with the same normalized email whose receipt times share the UTC
year/month/day/hour therefore receive the identical derived identifier. -/
theorem derived_id_hashes_email_and_hour_bucket (s : SurveySubmission)
    (t : PyDatetime) (ip : Option String) (h : s.submission_id = none) :
    (to_storage_record s t ip).lookup "submission_id"
      = some (.str (hash_text (pyLower s.email ++ hour_bucket t))) ∧
    (∀ (s2 : SurveySubmission) (t2 : PyDatetime) (ip2 : Option String),
      s2.submission_id = none → pyLower s2.email = pyLower s.email →
      t2.year = t.year → t2.month = t.month → t2.day = t.day → t2.hour = t.hour →
      (to_storage_record s2 t2 ip2).lookup "submission_id"
        = (to_storage_record s t ip).lookup "submission_id") := by
  have h1 : (to_storage_record s t ip).lookup "submission_id"
      = some (.str (hash_text (pyLower s.email ++ hour_bucket t))) := by
    rw [lookup_submission_id, h]
    simp [pyOrElse, compute_submission_id]
  refine ⟨h1, ?_⟩
  intro s2 t2 ip2 h2 hem hy hm hd hh
  have hb : hour_bucket t2 = hour_bucket t := by
    unfold hour_bucket
    rw [hy, hm, hd, hh]
  rw [h1, lookup_submission_id, h2]
  simp only [pyOrElse, compute_submission_id]
  rw [hem, hb]

/-- C3 witness: the happy-path submission at the concrete receipt time
receives the digest of "ava@example.com2025010210". -/
theorem derived_id_hashes_email_and_hour_bucket_witness :
    (to_storage_record avaSub tA (some "203.0.113.9")).lookup "submission_id"
      = some (.str "332df7bb6b710ae623433f3fafc37603315495dfca212336a9484d36badaad30") := by
  have h := derived_id_hashes_email_and_hour_bucket avaSub tA (some "203.0.113.9") rfl
  exact h.1.trans (by decide)

/-- C4 counterexample: the JSON number 1 in the consent field — neither the
boolean true nor false nor missing — passes validation (pydantic's boolean
coercion turns it into True before the model validator runs), refuting the
claim that any value other than boolean true fails. -/
theorem consent_accepts_integer_one :
    rawConsentOne.consent = some (.int 1) ∧
    validateSubmission rawConsentOne = .ok avaSub ∧
    avaSub.consent = true := by
  refine ⟨rfl, by decide, rfl⟩

/-- C4 (amended): a submission is accepted only with parsed consent exactly
true, and consent values of false, null or missing produce a field-scoped
consent error, reported by the boundary in a 422 whose detail list is the
accumulated error list; but values that the library's boolean coercion turns
into True (such as the integer 1) pass the consent check rather than failing
validation. -/
theorem consent_validation_via_bool_coercion (raw : RawPayload)
    (ua : Option String) (t : PyDatetime) (ip : Option String)
    (store : List StorageRecord) :
    (∀ s, validateSubmission raw = .ok s → s.consent = true) ∧
    (∀ errs, validateSubmission raw = .error errs →
      submit_survey (some raw) ua t ip store = (.unprocessable errs, store)) ∧
    (raw.consent = some (.bool false) →
      ∃ errs, validateSubmission raw = .error errs ∧
        ("consent", "consent must be true") ∈ errs) ∧
    (raw.consent = none →
      ∃ errs, validateSubmission raw = .error errs ∧
        ("consent", "field required") ∈ errs) ∧
    (raw.consent = some (.int 1) → ∀ m, ("consent", m) ∉ fieldErrors raw) := by
  refine ⟨?_, ?_, ?_, ?_, ?_⟩
  · intro s hok
    exact vConsent_ok_true raw.consent s.consent (validate_ok_fields raw s hok).2.2.2.1
  · intro errs herr
    simp [submit_survey, herr]
  · intro hc
    have hvc : vConsent raw.consent = .error "consent must be true" := by
      rw [hc]
      rfl
    have hmem : ("consent", "consent must be true") ∈ fieldErrors raw := by
      simp [fieldErrors, errList, hvc]
    rcases validate_cases raw with ⟨s, _, hempty⟩ | ⟨herr, _⟩
    · rw [hempty] at hmem
      cases hmem
    · exact ⟨_, herr, hmem⟩
  · intro hc
    have hvc : vConsent raw.consent = .error "field required" := by
      rw [hc]
      rfl
    have hmem : ("consent", "field required") ∈ fieldErrors raw := by
      simp [fieldErrors, errList, hvc]
    rcases validate_cases raw with ⟨s, _, hempty⟩ | ⟨herr, _⟩
    · rw [hempty] at hmem
      cases hmem
    · exact ⟨_, herr, hmem⟩
  · intro hc m hm
    have hvc : vConsent raw.consent = .ok true := by
      rw [hc]
      rfl
    simp only [fieldErrors, List.mem_append] at hm
    rcases hm with ((((hm | hm) | hm) | hm) | hm) | hm
    · have := errList_key _ _ _ hm
      simp at this
    · have := errList_key _ _ _ hm
      simp at this
    · have := errList_key _ _ _ hm
      simp at this
    · rw [hvc] at hm
      simp [errList] at hm
    · have := errList_key _ _ _ hm
      simp at this
    · have := errList_key _ _ _ hm
      simp at this

/-- C4 witness: consent false is rejected with a consent-scoped error
entry. -/
theorem consent_validation_via_bool_coercion_witness :
    ∃ errs, validateSubmission rawConsentFalse = .error errs ∧
      ("consent", "consent must be true") ∈ errs := by
  exact (consent_validation_via_bool_coercion rawConsentFalse
    none tA none []).2.2.1 rfl

/-- C5: when validation fails, the 422 response carries the accumulated error
list, and that list contains one field-scoped entry for every violated field
— every failing field check contributes its entry, never just the first. -/
theorem all_field_violations_reported (raw : RawPayload)
    (errs : List (String × String)) (ua : Option String) (t : PyDatetime)
    (ip : Option String) (store : List StorageRecord)
    (h : validateSubmission raw = .error errs) :
    submit_survey (some raw) ua t ip store = (.unprocessable errs, store) ∧
    (∀ m, vName raw.name = .error m → ("name", m) ∈ errs) ∧
    (∀ m, vEmail raw.email = .error m → ("email", m) ∈ errs) ∧
    (∀ m, vAge raw.age = .error m → ("age", m) ∈ errs) ∧
    (∀ m, vConsent raw.consent = .error m → ("consent", m) ∈ errs) ∧
    (∀ m, vRating raw.rating = .error m → ("rating", m) ∈ errs) ∧
    (∀ m, vComments raw.comments = .error m → ("comments", m) ∈ errs) := by
  have he := validate_error_eq raw errs h
  subst he
  refine ⟨by simp [submit_survey, h], ?_, ?_, ?_, ?_, ?_, ?_⟩ <;>
    (intro m hm; simp [fieldErrors, errList, hm])

/-- C5 witness: a payload violating five constraints at once is rejected with
all five field-scoped entries in one response. -/
theorem all_field_violations_reported_witness :
    submit_survey (some rawMulti) none tA none []
      = (.unprocessable
          [("name", "ensure this value has at least 1 characters"),
           ("email", "value is not a valid email address"),
           ("age", "ensure this value is greater than or equal to 13"),
           ("consent", "consent must be true"),
           ("rating", "ensure this value is less than or equal to 5")], []) ∧
    ("name", "ensure this value has at least 1 characters")
      ∈ [("name", "ensure this value has at least 1 characters"),
         ("email", "value is not a valid email address"),
         ("age", "ensure this value is greater than or equal to 13"),
         ("consent", "consent must be true"),
         ("rating", "ensure this value is less than or equal to 5")] ∧
    ("rating", "ensure this value is less than or equal to 5")
      ∈ [("name", "ensure this value has at least 1 characters"),
         ("email", "value is not a valid email address"),
         ("age", "ensure this value is greater than or equal to 13"),
         ("consent", "consent must be true"),
         ("rating", "ensure this value is less than or equal to 5")] := by
  have h := all_field_violations_reported rawMulti
    [("name", "ensure this value has at least 1 characters"),
     ("email", "value is not a valid email address"),
     ("age", "ensure this value is greater than or equal to 13"),
     ("consent", "consent must be true"),
     ("rating", "ensure this value is less than or equal to 5")]
    none tA none [] (by decide)
  exact ⟨h.1, h.2.1 _ (by decide), h.2.2.2.2.2.1 _ (by decide)⟩

/-- C6 counterexample: a submission whose submission_id is present but equal
to the empty string is not stored verbatim — the falsy value falls through to
the derived identifier — refuting the claim for that input. -/
theorem empty_supplied_submission_id_not_verbatim :
    subEmptySid.submission_id = some "" ∧
    (to_storage_record subEmptySid tA none).lookup "submission_id"
      ≠ some (.str "") := by
  exact ⟨rfl, by decide⟩

/-- C6 (amended): a present nonempty submission_id is trusted and stored
verbatim with no derivation; a present empty string (including whitespace-only
input, which validation strips to empty) is treated as absent and the
identifier is derived instead. -/
theorem nonempty_supplied_submission_id_verbatim (s : SurveySubmission)
    (t : PyDatetime) (ip : Option String) (sid : String)
    (h : s.submission_id = some sid) (hne : sid ≠ "") :
    (to_storage_record s t ip).lookup "submission_id" = some (.str sid) := by
  rw [lookup_submission_id, h]
  simp [pyOrElse, hne]

/-- C6 witness: the identifier "custom-id-123" is stored verbatim. -/
theorem nonempty_supplied_submission_id_verbatim_witness :
    (to_storage_record subCustomSid tA none).lookup "submission_id"
      = some (.str "custom-id-123") := by
  exact nonempty_supplied_submission_id_verbatim subCustomSid tA none
    "custom-id-123" rfl (by decide)

/-- C7: `append_record` (modelled from the spec, being absent from
`src/storage.py`) appends the record as exactly one serialized line — the
serialization contains no newline — at the end of the target location passed
by the caller, creates that location when absent, leaves the previously
stored lines in place as a prefix, and leaves every other location
untouched. -/
theorem append_record_appends_one_line (r : StorageRecord) (path : String)
    (fs : FileStore) :
    append_record r path fs path = some (((fs path).getD []) ++ [serializeRecord r]) ∧
    (fs path = none → append_record r path fs path = some [serializeRecord r]) ∧
    (∀ q, q ≠ path → append_record r path fs q = fs q) ∧
    '\n' ∉ (serializeRecord r).data := by
  refine ⟨by simp [append_record], ?_, ?_, serializeRecord_ne_newline r⟩
  · intro h
    simp [append_record, h]
  · intro q hq
    simp [append_record, hq]

/-- C7 witness: appending a concrete record to an empty store creates the
target file with the one serialized line and leaves other paths absent. -/
theorem append_record_appends_one_line_witness :
    append_record recW "data/survey.ndjson" emptyStore "data/survey.ndjson"
      = some ["\x7b\"submission_id\": \"custom-id-123\", \"rating\": 5\x7d"] ∧
    append_record recW "data/survey.ndjson" emptyStore "data/other.ndjson" = none ∧
    '\n' ∉ (serializeRecord recW).data := by
  have h := append_record_appends_one_line recW "data/survey.ndjson" emptyStore
  exact ⟨(h.2.1 rfl).trans (by decide), (h.2.2.1 "data/other.ndjson" (by decide)).trans rfl,
    h.2.2.2⟩

/-- C8: a valid submission's source is always one of web, mobile or other;
the source field contributes no validation error for any scalar input;
missing, falsy and out-of-set values (after trimming and lowercasing)
normalize to "other". -/
theorem source_normalized_never_fails (raw : RawPayload) (s : SurveySubmission)
    (v : Option JVal) (hok : validateSubmission raw = .ok s) :
    s.source ∈ (["web", "mobile", "other"] : List String) ∧
    (∀ m, ("source", m) ∉ fieldErrors raw) ∧
    vSource v ∈ (["web", "mobile", "other"] : List String) ∧
    (v = none → vSource v = "other") ∧
    (∀ x, pyFalsy x = false →
      pyLower (pystrip (pyStr x)) ∉ (["web", "mobile", "other"] : List String) →
      vSource (some x) = "other") := by
  refine ⟨?_, ?_, vSource_mem v, ?_, ?_⟩
  · rw [(validate_ok_fields raw s hok).2.2.2.2.2.2.1]
    exact vSource_mem raw.source
  · intro m hm
    simp only [fieldErrors, List.mem_append] at hm
    rcases hm with ((((hm | hm) | hm) | hm) | hm) | hm
    all_goals have h9 := errList_key _ _ _ hm
    all_goals simp at h9
  · intro hv
    subst hv
    rfl
  · intro x hf hn
    simp only [vSource, Option.getD, hf, Bool.false_eq_true, if_false]
    rw [if_neg hn]

/-- C8 witness: "carrier-pigeon" normalizes to other rather than failing, a
padded upper-case "  WEB " normalizes into the set, and the happy-path
submission's source sits in the enumerated set. -/
theorem source_normalized_never_fails_witness :
    avaSub.source ∈ (["web", "mobile", "other"] : List String) ∧
    vSource (some (.str "carrier-pigeon")) = "other" ∧
    vSource (some (.str "  WEB ")) = "web" ∧
    vSource none = "other" := by
  have h := source_normalized_never_fails avaRaw avaSub
    (some (.str "carrier-pigeon")) (by decide)
  exact ⟨h.1, h.2.2.2.2 (.str "carrier-pigeon") (by decide) (by decide),
    by decide, by decide⟩

/-- C9: `iter_json_lines` returns the empty (finite) sequence when the store
location does not exist, depends only on the store state — so re-invoking it
rereads the same lines from the start — and after any finite run of appends
to the fixed store it yields exactly the serialized records in append order,
oldest first. -/
theorem iterate_file_order_finite_restartable :
    (∀ path (fs : FileStore), fs path = none → iter_json_lines path fs = []) ∧
    (∀ path (fs fs' : FileStore), (∀ q, fs q = fs' q) →
      iter_json_lines path fs = iter_json_lines path fs') ∧
    (∀ records : List StorageRecord,
      iter_json_lines RESULTS_PATH
        (records.foldl (fun fs r => append_json_line r fs) emptyStore)
        = records.map serializeRecord) := by
  refine ⟨?_, ?_, ?_⟩
  · intro path fs h
    simp [iter_json_lines, h]
  · intro path fs fs' h
    simp only [iter_json_lines, h path]
  · intro records
    rw [iter_appendMany]
    simp [iter_json_lines, emptyStore]

/-- C9 witness: a missing store iterates to the empty sequence, and two
appended records come back as their two serialized lines in append order. -/
theorem iterate_file_order_finite_restartable_witness :
    iter_json_lines "data/absent.ndjson" emptyStore = [] ∧
    iter_json_lines RESULTS_PATH
        ([recW, recX].foldl (fun fs r => append_json_line r fs) emptyStore)
      = ["\x7b\"submission_id\": \"custom-id-123\", \"rating\": 5\x7d",
         "\x7b\"submission_id\": \"id-2\", \"consent\": true\x7d"] := by
  have h := iterate_file_order_finite_restartable
  exact ⟨h.1 "data/absent.ndjson" emptyStore rfl, (h.2.2 [recW, recX]).trans (by decide)⟩

/-- C10: a supplied submission_id that is empty or whitespace-only is treated
as absent — validation strips it to the empty string, and since the empty
string is falsy the record builder uses the derived identifier instead of the
supplied value. -/
theorem blank_submission_id_treated_as_absent (raw : RawPayload) (w : String)
    (s : SurveySubmission) (t : PyDatetime) (ip : Option String)
    (hraw : raw.submission_id = some (.str w)) (hws : w.data.all pyIsSpace = true)
    (hok : validateSubmission raw = .ok s) :
    s.submission_id = some "" ∧
    (to_storage_record s t ip).lookup "submission_id"
      = some (.str (hash_text (pyLower s.email ++ hour_bucket t))) := by
  have hsid := (validate_ok_fields raw s hok).2.2.2.2.2.2.2.2
  rw [hraw] at hsid
  have hv : vOptStr (some (.str w)) = some "" := by
    simp [vOptStr, pyStr, pystrip_all_space w hws]
  rw [hv] at hsid
  refine ⟨hsid, ?_⟩
  rw [lookup_submission_id, hsid]
  simp [pyOrElse, compute_submission_id]

/-- C10 witness: the whitespace-only identifier "   " validates to the empty
string and the stored identifier is the derived digest. -/
theorem blank_submission_id_treated_as_absent_witness :
    subEmptySid.submission_id = some "" ∧
    (to_storage_record subEmptySid tA none).lookup "submission_id"
      = some (.str "332df7bb6b710ae623433f3fafc37603315495dfca212336a9484d36badaad30") := by
  have h := blank_submission_id_treated_as_absent rawBlankSid "   " subEmptySid
    tA none rfl (by decide) (by decide)
  exact ⟨h.1, h.2.trans (by decide)⟩

end Survey
